import Mathlib

/-!
Shallow embedding of the workout-plan generator in `app/main.py`.

The generator is the class `WorkoutPlan`: given a character id, a requested
number of training days per week (clamped to [1,6]), a level, a goal and an
equipment choice, it resolves a weekly focus template, and `generate(weeks)`
builds `weeks` copies of that template, choosing for each day one exercise per
eligible muscle group from a fixed catalog, under a two-day recovery
constraint tracked in `last_trained`.

Python's hidden `random.choice` is modelled by an explicit stream
`rnd : Nat → Nat` together with a consumption counter `k`; the n-th call to
`random.choice(pool)` returns `pool[rnd n % pool.length]`.  Python ints are
`Int`; list positions are `Nat`.
-/

/-- A catalog entry: `{"id", "name", "group", "equipment"}`. -/
structure Exercise where
  id : String
  name : String
  group : String
  equipment : String
deriving Repr, DecidableEq, Inhabited

/-- The fixed exercise catalog `EXERCISES` from `app/main.py`. -/
def EXERCISES : List Exercise :=
  [ ⟨"pushup",    "Push-ups",           "chest",     "bodyweight"⟩,
    ⟨"ohp-db",    "DB Shoulder Press",  "shoulders", "dumbbells"⟩,
    ⟨"bench",     "Bench Press",        "chest",     "gym"⟩,
    ⟨"row",       "DB Row",             "back",      "dumbbells"⟩,
    ⟨"pullup",    "Pull-ups",           "back",      "bodyweight"⟩,
    ⟨"squat-bw",  "Bodyweight Squat",   "legs",      "bodyweight"⟩,
    ⟨"goblet",    "Goblet Squat",       "legs",      "dumbbells"⟩,
    ⟨"backsquat", "Back Squat",         "legs",      "gym"⟩,
    ⟨"plank",     "Plank",              "core",      "bodyweight"⟩,
    ⟨"hkr",       "Hanging Knee Raise", "core",      "gym"⟩ ]

/-- A character archetype: style, weekly focus template, default sets/reps. -/
structure Archetype where
  style : String
  template : List String
  sets : Int
  reps : Int
deriving Repr, DecidableEq, Inhabited

/-- The archetype table `CHAR_ARCH` from `app/main.py`, as a lookup
(`CHAR_ARCH.get(character_id)` in the source). -/
def CHAR_ARCH (character_id : String) : Option Archetype :=
  if character_id = "goku" then
    some ⟨"power", ["push", "pull", "legs", "full", "full"], 4, 5⟩
  else if character_id = "luffy" then
    some ⟨"endurance", ["full", "full", "legs", "full", "full"], 3, 12⟩
  else if character_id = "asta" then
    some ⟨"strength", ["push", "pull", "legs", "push", "pull"], 4, 6⟩
  else if character_id = "saitama" then
    some ⟨"full-body", ["full", "full", "full"], 3, 10⟩
  else none

/-- `ExerciseItem` response model: one scheduled exercise. -/
structure ExerciseItem where
  exercise_id : String
  sets : Int
  reps : Int
deriving Repr, DecidableEq, Inhabited

/-- `DayPlan` response model: one scheduled day. -/
structure DayPlan where
  week : Int
  day_index : Nat
  focus : String
  items : List ExerciseItem
deriving Repr, DecidableEq, Inhabited

/-- `WorkoutPlan._make_template`: resolve the weekly focus template for a
character id and a (clamped) day count. -/
def make_template (character_id : String) (days : Nat) : List String :=
  match CHAR_ARCH character_id with
  | some pref =>
    let base := pref.template
    if days ≤ base.length then
      base.take days
    else
      -- extend by repeating the last day type (`base[-1]`; every archetype
      -- template is nonempty, so the `getLastD` default is never used)
      base ++ List.replicate (days - base.length) (base.getLastD "")
  | none =>
    -- fallback generic templates
    if days ≤ 3 then ["full", "full", "full"]
    else if days = 4 then ["push", "legs", "pull", "full"]
    else if days = 5 then ["push", "pull", "legs", "full", "full"]
    else ["push", "pull", "legs", "push", "pull", "legs"]

/-- The `WorkoutPlan` instance state set up by `__init__` (minus the mutable
`last_trained`, which is threaded explicitly through generation). -/
structure WorkoutPlan where
  character_id : String
  days : Int
  level : String
  goal : String
  equipment : String
  template : List String
deriving Repr, DecidableEq, Inhabited

/-- `WorkoutPlan.__init__`: clamp `days_per_week` into [1,6] and resolve the
template. -/
def WorkoutPlan.init (character_id : String) (days_per_week : Int)
    (level goal equipment : String) : WorkoutPlan :=
  let days := max 1 (min 6 days_per_week)
  { character_id, days, level, goal, equipment,
    template := make_template character_id days.toNat }

/-- The initial `last_trained` mapping: every tracked muscle group
(`chest, back, legs, shoulders, arms, core`) starts at the sentinel `-999`;
the generator only ever reads those six keys. -/
def initLastTrained : String → Int := fun _ => -999

/-- `WorkoutPlan._sets_reps`: character bias nudged by goal. -/
def WorkoutPlan.sets_reps (p : WorkoutPlan) : Int × Int :=
  let char := CHAR_ARCH p.character_id
  let base_sets : Int :=
    match char with
    | some c => c.sets
    | none => if p.level = "beginner" then 3 else 4
  let char_reps : Option Int :=
    match char with
    | some c => some c.reps
    | none => none
  let reps : Int :=
    if p.goal = "strength" then
      match char_reps with
      | none => 4
      | some r => min r 6
    else if p.goal = "hypertrophy" then
      match char_reps with
      | none => 8
      | some r => max r 8
    else -- athletic
      match char_reps with
      | none => 10
      | some r => max r 10
  (base_sets, reps)

/-- `WorkoutPlan._focus_groups`: candidate muscle groups for a focus tag. -/
def focus_groups (focus : String) : List String :=
  if focus = "push" then ["chest", "shoulders", "core"]
  else if focus = "pull" then ["back", "core"]
  else if focus = "legs" then ["legs", "core"]
  else ["chest", "back", "legs", "shoulders", "core"]  -- full

/-- `WorkoutPlan._filtered`: catalog exercises of the given group that match
the requested equipment ("gym" accepts anything; otherwise the exercise's
equipment must equal the request or be "bodyweight"). -/
def WorkoutPlan.filtered (p : WorkoutPlan) (group : String) : List Exercise :=
  EXERCISES.filter fun ex =>
    ex.group == group &&
      (p.equipment == "gym" || ex.equipment == p.equipment ||
        ex.equipment == "bodyweight")

/-- `random.choice(pool)` under the explicit random stream: the `k`-th choice
picks index `rnd k % pool.length`.  Only called on nonempty pools. -/
def randomChoice (rnd : Nat → Nat) (k : Nat) (pool : List Exercise) : Exercise :=
  pool.getD (rnd k % pool.length) default

/-- The inner `for g in groups` loop of `WorkoutPlan.generate` for one day:
skip groups trained within the last 2 global days, skip groups with an empty
filtered pool, otherwise pick a random exercise, record the item, update
`last_trained`, and stop once the day holds 5 items.  Returns the final
`(items, last_trained, k)`. -/
def trainGroups (p : WorkoutPlan) (sets reps : Int) (rnd : Nat → Nat)
    (day : Int) :
    List String → List ExerciseItem → (String → Int) → Nat →
    List ExerciseItem × (String → Int) × Nat
  | [], items, lt, k => (items, lt, k)
  | g :: rest, items, lt, k =>
    -- simple recovery: ~2 days between hits
    if day - lt g < 2 then
      trainGroups p sets reps rnd day rest items lt k
    else
      let pool := p.filtered g
      if pool.isEmpty then
        trainGroups p sets reps rnd day rest items lt k
      else
        let choice := randomChoice rnd k pool
        let items2 := items ++ [⟨choice.id, sets, reps⟩]
        let lt2 := Function.update lt g day
        if 5 ≤ items2.length then (items2, lt2, k + 1)
        else trainGroups p sets reps rnd day rest items2 lt2 (k + 1)

/-- Stable insertion into a key-sorted list: the inserted element passes all
elements with a strictly smaller key and lands before the first element whose
key is ≥ its own (so it precedes later elements with an equal key). -/
def insertByKey (key : String → Int) (g : String) : List String → List String
  | [] => [g]
  | h :: t =>
    if key h < key g then h :: insertByKey key g t
    else g :: h :: t

/-- `groups.sort(key=lambda g: self.last_trained[g])`: Python's stable
ascending sort by key.  A stable ascending sort has a unique output, so any
stable implementation models it; this is insertion sort, which the kernel
can evaluate. -/
def sortByKey (key : String → Int) : List String → List String
  | [] => []
  | h :: t => insertByKey key h (sortByKey key t)

/-- One day of `WorkoutPlan.generate`: sort the focus groups by
`last_trained` (stable, least recently trained first) and run the group
loop starting from an empty item list. -/
def buildDay (p : WorkoutPlan) (sets reps : Int) (rnd : Nat → Nat)
    (day : Int) (focus : String) (lt : String → Int) (k : Nat) :
    List ExerciseItem × (String → Int) × Nat :=
  let groups := sortByKey lt (focus_groups focus)
  trainGroups p sets reps rnd day groups [] lt k

/-- The flattened day loop of `WorkoutPlan.generate`: one triple
`(week, day_index, focus)` per scheduled day, threading
`(last_trained, current_day_index, k)` across all days. -/
def runDays (p : WorkoutPlan) (sets reps : Int) (rnd : Nat → Nat) :
    List (Int × Nat × String) → (String → Int) → Int → Nat →
    List DayPlan × (String → Int) × Int × Nat
  | [], lt, day, k => ([], lt, day, k)
  | (w, d, focus) :: rest, lt, day, k =>
    let r := buildDay p sets reps rnd day focus lt k
    let r2 := runDays p sets reps rnd rest r.2.1 (day + 1) r.2.2
    (⟨w, d, focus, r.1⟩ :: r2.1, r2.2)

/-- The day triples scheduled by `generate`: for each week `w` in
`range(1, weeks+1)`, the enumerated weekly template. -/
def daySpecs (template : List String) (weeks : Int) : List (Int × Nat × String) :=
  (List.range weeks.toNat).flatMap fun wi =>
    template.enum.map fun df => ((wi : Int) + 1, df.1, df.2)

/-- `WorkoutPlan.generate(weeks)`: compute the uniform `(sets, reps)` pair
once, then build every scheduled day in week-major, day-minor order, with a
global day counter starting at 0. -/
def WorkoutPlan.generate (p : WorkoutPlan) (rnd : Nat → Nat) (weeks : Int) :
    List DayPlan :=
  let sr := p.sets_reps
  (runDays p sr.1 sr.2 rnd (daySpecs p.template weeks) initLastTrained 0 0).1

/-- The catalog muscle group of an exercise id. -/
def lookupGroup (exercise_id : String) : Option String :=
  (EXERCISES.find? fun e => e.id == exercise_id).map (·.group)

/-- A day plan trains muscle group `g` iff one of its items is an exercise
of that group. -/
def dayTrains (pl : DayPlan) (g : String) : Bool :=
  pl.items.any fun it => lookupGroup it.exercise_id == some g

/-! ### Catalog facts -/

/-- Exercise ids are pairwise distinct in the catalog. -/
theorem exercises_id_nodup : (EXERCISES.map (·.id)).Nodup := by decide

/-- `find?` by id recovers a catalog member. -/
theorem find_mem_exercises (ex : Exercise) (h : ex ∈ EXERCISES) :
    (EXERCISES.find? fun e => e.id == ex.id) = some ex := by
  fin_cases h <;> rfl

/-- The catalog group of a catalog member's id. -/
theorem lookupGroup_of_mem (ex : Exercise) (h : ex ∈ EXERCISES) :
    lookupGroup ex.id = some ex.group := by
  simp [lookupGroup, find_mem_exercises ex h]

/-- Catalog members are determined by their id. -/
theorem exercises_id_inj (ex ey : Exercise) (hx : ex ∈ EXERCISES)
    (hy : ey ∈ EXERCISES) (h : ex.id = ey.id) : ex = ey :=
  List.inj_on_of_nodup_map exercises_id_nodup hx hy h

/-- Membership in the filtered pool, spelled out. -/
theorem mem_filtered (p : WorkoutPlan) (g : String) (ex : Exercise) :
    ex ∈ p.filtered g ↔
      ex ∈ EXERCISES ∧ ex.group = g ∧
        (p.equipment = "gym" ∨ ex.equipment = p.equipment ∨
          ex.equipment = "bodyweight") := by
  simp [WorkoutPlan.filtered, List.mem_filter, and_assoc, or_assoc]

/-- A random choice from a nonempty pool is a member of the pool. -/
theorem randomChoice_mem (rnd : Nat → Nat) (k : Nat) (pool : List Exercise)
    (h : pool ≠ []) : randomChoice rnd k pool ∈ pool := by
  have hl : 0 < pool.length := List.length_pos.mpr h
  have hlt : rnd k % pool.length < pool.length := Nat.mod_lt _ hl
  rw [randomChoice, List.getD_eq_getElem _ _ hlt]
  exact List.getElem_mem hlt

/-- Insertion produces a permutation of putting the element in front. -/
theorem insertByKey_perm (key : String → Int) (g : String) (l : List String) :
    (insertByKey key g l).Perm (g :: l) := by
  induction l with
  | nil => exact List.Perm.refl _
  | cons h t ih =>
    rw [insertByKey]
    by_cases hk : key h < key g
    · rw [if_pos hk]
      exact (ih.cons h).trans (List.Perm.swap g h t)
    · rw [if_neg hk]

/-- The stable sort is a permutation of its input. -/
theorem sortByKey_perm (key : String → Int) (l : List String) :
    (sortByKey key l).Perm l := by
  induction l with
  | nil => exact List.Perm.refl _
  | cons h t ih =>
    rw [sortByKey]
    exact (insertByKey_perm key h (sortByKey key t)).trans (ih.cons h)

/-- Sorting preserves membership. -/
theorem mem_sortByKey (key : String → Int) (l : List String) (a : String) :
    a ∈ sortByKey key l ↔ a ∈ l :=
  (sortByKey_perm key l).mem_iff

/-! ### Unfolding equations for the group loop -/

/-- A group trained within the last 2 global days is skipped. -/
theorem trainGroups_cons_recovery {p : WorkoutPlan} {sets reps : Int}
    {rnd : Nat → Nat} {day : Int} {g : String} {rest : List String}
    {items : List ExerciseItem} {lt : String → Int} {k : Nat}
    (hrec : day - lt g < 2) :
    trainGroups p sets reps rnd day (g :: rest) items lt k =
      trainGroups p sets reps rnd day rest items lt k := by
  simp only [trainGroups, if_pos hrec]

/-- A group whose filtered pool is empty is skipped: no item is added and
`last_trained` is untouched. -/
theorem trainGroups_cons_empty {p : WorkoutPlan} {sets reps : Int}
    {rnd : Nat → Nat} {day : Int} {g : String} {rest : List String}
    {items : List ExerciseItem} {lt : String → Int} {k : Nat}
    (hrec : ¬ day - lt g < 2) (hpool : p.filtered g = []) :
    trainGroups p sets reps rnd day (g :: rest) items lt k =
      trainGroups p sets reps rnd day rest items lt k := by
  simp only [trainGroups, if_neg hrec, hpool, List.isEmpty_nil, if_true]

/-- Training a group when the day then reaches 5 items: the loop stops even
though `rest` remains. -/
theorem trainGroups_cons_break {p : WorkoutPlan} {sets reps : Int}
    {rnd : Nat → Nat} {day : Int} {g : String} {rest : List String}
    {items : List ExerciseItem} {lt : String → Int} {k : Nat}
    (hrec : ¬ day - lt g < 2) (hpool : p.filtered g ≠ [])
    (h5 : 4 ≤ items.length) :
    trainGroups p sets reps rnd day (g :: rest) items lt k =
      (items ++ [⟨(randomChoice rnd k (p.filtered g)).id, sets, reps⟩],
        Function.update lt g day, k + 1) := by
  have hne : ¬ (p.filtered g).isEmpty = true := by
    simpa [List.isEmpty_iff] using hpool
  simp only [trainGroups, if_neg hrec, if_neg hne]
  rw [if_pos (by simp only [List.length_append, List.length_cons,
    List.length_nil]; omega)]

/-- Training a group while the day stays under 5 items: record the item,
update `last_trained`, and continue with the remaining groups. -/
theorem trainGroups_cons_cont {p : WorkoutPlan} {sets reps : Int}
    {rnd : Nat → Nat} {day : Int} {g : String} {rest : List String}
    {items : List ExerciseItem} {lt : String → Int} {k : Nat}
    (hrec : ¬ day - lt g < 2) (hpool : p.filtered g ≠ [])
    (h5 : items.length < 4) :
    trainGroups p sets reps rnd day (g :: rest) items lt k =
      trainGroups p sets reps rnd day rest
        (items ++ [⟨(randomChoice rnd k (p.filtered g)).id, sets, reps⟩])
        (Function.update lt g day) (k + 1) := by
  have hne : ¬ (p.filtered g).isEmpty = true := by
    simpa [List.isEmpty_iff] using hpool
  simp only [trainGroups, if_neg hrec, if_neg hne]
  rw [if_neg (by simp only [List.length_append, List.length_cons,
    List.length_nil]; omega)]

/-! ### Invariants of the group loop -/

/-- After the group loop, each group either keeps its `last_trained` value or
was set to the current day (and then it is one of the processed groups). -/
theorem trainGroups_lt {p : WorkoutPlan} {sets reps : Int} {rnd : Nat → Nat}
    {day : Int} (groups : List String) :
    ∀ (items : List ExerciseItem) (lt : String → Int) (k : Nat) (g : String),
      (trainGroups p sets reps rnd day groups items lt k).2.1 g = lt g ∨
        (g ∈ groups ∧
          (trainGroups p sets reps rnd day groups items lt k).2.1 g = day) := by
  induction groups with
  | nil => intro items lt k g; exact Or.inl rfl
  | cons g0 rest ih =>
    intro items lt k g
    by_cases hrec : day - lt g0 < 2
    · rw [trainGroups_cons_recovery hrec]
      rcases ih items lt k g with h | ⟨hm, h⟩
      · exact Or.inl h
      · exact Or.inr ⟨List.mem_cons_of_mem _ hm, h⟩
    · by_cases hpool : p.filtered g0 = []
      · rw [trainGroups_cons_empty hrec hpool]
        rcases ih items lt k g with h | ⟨hm, h⟩
        · exact Or.inl h
        · exact Or.inr ⟨List.mem_cons_of_mem _ hm, h⟩
      · by_cases h5 : 4 ≤ items.length
        · rw [trainGroups_cons_break hrec hpool h5]
          by_cases hg : g = g0
          · subst hg
            exact Or.inr ⟨List.mem_cons_self _ _, Function.update_same g day lt⟩
          · exact Or.inl (Function.update_noteq hg day lt)
        · rw [trainGroups_cons_cont hrec hpool (by omega)]
          rcases ih (items ++ [⟨(randomChoice rnd k (p.filtered g0)).id,
              sets, reps⟩]) (Function.update lt g0 day) (k + 1) g with
            h | ⟨hm, h⟩
          · by_cases hg : g = g0
            · subst hg
              exact Or.inr ⟨List.mem_cons_self _ _,
                h.trans (Function.update_same g day lt)⟩
            · exact Or.inl (h.trans (Function.update_noteq hg day lt))
          · exact Or.inr ⟨List.mem_cons_of_mem _ hm, h⟩

/-- A group already stamped with the current day keeps that stamp. -/
theorem trainGroups_lt_day {p : WorkoutPlan} {sets reps : Int}
    {rnd : Nat → Nat} {day : Int} (groups : List String)
    (items : List ExerciseItem) (lt : String → Int) (k : Nat) {g : String}
    (hg : lt g = day) :
    (trainGroups p sets reps rnd day groups items lt k).2.1 g = day := by
  rcases trainGroups_lt groups items lt k g with h | ⟨_, h⟩
  · rw [h, hg]
  · exact h

/-- Every item produced by the group loop either was already there, or is a
random pick from the filtered pool of one of the processed groups, and that
group's `last_trained` was stamped with the current day. -/
theorem trainGroups_items {p : WorkoutPlan} {sets reps : Int}
    {rnd : Nat → Nat} {day : Int} (groups : List String) :
    ∀ (items : List ExerciseItem) (lt : String → Int) (k : Nat),
      ∀ it ∈ (trainGroups p sets reps rnd day groups items lt k).1,
        it ∈ items ∨
          ∃ g, g ∈ groups ∧
            (trainGroups p sets reps rnd day groups items lt k).2.1 g = day ∧
            ∃ ex, ex ∈ p.filtered g ∧ it = ⟨ex.id, sets, reps⟩ := by
  induction groups with
  | nil => intro items lt k it hit; exact Or.inl hit
  | cons g0 rest ih =>
    intro items lt k it hit
    by_cases hrec : day - lt g0 < 2
    · rw [trainGroups_cons_recovery hrec] at hit ⊢
      rcases ih items lt k it hit with h | ⟨g, hg, hd, hex⟩
      · exact Or.inl h
      · exact Or.inr ⟨g, List.mem_cons_of_mem _ hg, hd, hex⟩
    · by_cases hpool : p.filtered g0 = []
      · rw [trainGroups_cons_empty hrec hpool] at hit ⊢
        rcases ih items lt k it hit with h | ⟨g, hg, hd, hex⟩
        · exact Or.inl h
        · exact Or.inr ⟨g, List.mem_cons_of_mem _ hg, hd, hex⟩
      · by_cases h5 : 4 ≤ items.length
        · rw [trainGroups_cons_break hrec hpool h5] at hit ⊢
          rcases List.mem_append.mp hit with h | h
          · exact Or.inl h
          · have heq : it =
                ⟨(randomChoice rnd k (p.filtered g0)).id, sets, reps⟩ := by
              simpa using h
            exact Or.inr ⟨g0, List.mem_cons_self _ _,
              Function.update_same g0 day lt,
              randomChoice rnd k (p.filtered g0),
              randomChoice_mem rnd k _ hpool, heq⟩
        · rw [trainGroups_cons_cont hrec hpool (by omega)] at hit ⊢
          rcases ih (items ++ [⟨(randomChoice rnd k (p.filtered g0)).id,
              sets, reps⟩]) (Function.update lt g0 day) (k + 1) it hit with
            h | ⟨g, hg, hd, hex⟩
          · rcases List.mem_append.mp h with h2 | h2
            · exact Or.inl h2
            · have heq : it =
                  ⟨(randomChoice rnd k (p.filtered g0)).id, sets, reps⟩ := by
                simpa using h2
              exact Or.inr ⟨g0, List.mem_cons_self _ _,
                trainGroups_lt_day rest _ _ _ (Function.update_same g0 day lt),
                randomChoice rnd k (p.filtered g0),
                randomChoice_mem rnd k _ hpool, heq⟩
          · exact Or.inr ⟨g, List.mem_cons_of_mem _ hg, hd, hex⟩

/-- A group under the recovery threshold is never trained by the loop: its
`last_trained` value is unchanged, and no new item belongs to it. -/
theorem trainGroups_recovery {p : WorkoutPlan} {sets reps : Int}
    {rnd : Nat → Nat} {day : Int} (groups : List String) :
    ∀ (items : List ExerciseItem) (lt : String → Int) (k : Nat) (g : String),
      day - lt g < 2 →
      (trainGroups p sets reps rnd day groups items lt k).2.1 g = lt g ∧
      ∀ it ∈ (trainGroups p sets reps rnd day groups items lt k).1,
        it ∈ items ∨ lookupGroup it.exercise_id ≠ some g := by
  induction groups with
  | nil => intro items lt k g hg; exact ⟨rfl, fun it hit => Or.inl hit⟩
  | cons g0 rest ih =>
    intro items lt k g hg
    by_cases hrec : day - lt g0 < 2
    · rw [trainGroups_cons_recovery hrec]; exact ih items lt k g hg
    · have hne : g ≠ g0 := fun h => hrec (h ▸ hg)
      by_cases hpool : p.filtered g0 = []
      · rw [trainGroups_cons_empty hrec hpool]; exact ih items lt k g hg
      · have hchoice : randomChoice rnd k (p.filtered g0) ∈ p.filtered g0 :=
          randomChoice_mem rnd k _ hpool
        have hmem := (mem_filtered p g0 _).mp hchoice
        have hlook :
            lookupGroup (randomChoice rnd k (p.filtered g0)).id = some g0 := by
          rw [lookupGroup_of_mem _ hmem.1, hmem.2.1]
        by_cases h5 : 4 ≤ items.length
        · rw [trainGroups_cons_break hrec hpool h5]
          refine ⟨Function.update_noteq hne day lt, fun it hit => ?_⟩
          rcases List.mem_append.mp hit with h | h
          · exact Or.inl h
          · have heq : it =
                ⟨(randomChoice rnd k (p.filtered g0)).id, sets, reps⟩ := by
              simpa using h
            right
            rw [heq]
            simp only [hlook]
            intro hcon
            exact hne (Option.some_injective _ hcon).symm
        · rw [trainGroups_cons_cont hrec hpool (by omega)]
          have hg2 : day - Function.update lt g0 day g < 2 := by
            rwa [Function.update_noteq hne]
          obtain ⟨h1, h2⟩ := ih (items ++
            [⟨(randomChoice rnd k (p.filtered g0)).id, sets, reps⟩])
            (Function.update lt g0 day) (k + 1) g hg2
          refine ⟨by rw [h1, Function.update_noteq hne], fun it hit => ?_⟩
          rcases h2 it hit with h | h
          · rcases List.mem_append.mp h with h2b | h2b
            · exact Or.inl h2b
            · have heq : it =
                  ⟨(randomChoice rnd k (p.filtered g0)).id, sets, reps⟩ := by
                simpa using h2b
              right
              rw [heq]
              simp only [hlook]
              intro hcon
              exact hne (Option.some_injective _ hcon).symm
          · exact Or.inr h

/-- The 5-item cap: starting under 5 items, the loop never exceeds 5. -/
theorem trainGroups_length {p : WorkoutPlan} {sets reps : Int}
    {rnd : Nat → Nat} {day : Int} (groups : List String) :
    ∀ (items : List ExerciseItem) (lt : String → Int) (k : Nat),
      items.length < 5 →
      (trainGroups p sets reps rnd day groups items lt k).1.length ≤ 5 := by
  induction groups with
  | nil => intro items lt k h; exact Nat.le_of_lt h
  | cons g0 rest ih =>
    intro items lt k h
    by_cases hrec : day - lt g0 < 2
    · rw [trainGroups_cons_recovery hrec]; exact ih items lt k h
    · by_cases hpool : p.filtered g0 = []
      · rw [trainGroups_cons_empty hrec hpool]; exact ih items lt k h
      · by_cases h5 : 4 ≤ items.length
        · rw [trainGroups_cons_break hrec hpool h5]
          simp only [List.length_append, List.length_cons, List.length_nil]
          omega
        · rw [trainGroups_cons_cont hrec hpool (by omega)]
          exact ih _ _ _ (by simp only [List.length_append,
            List.length_cons, List.length_nil]; omega)

/-- Distinct groups yield at most one item per group: the catalog groups of
the produced items stay pairwise distinct. -/
theorem trainGroups_nodup {p : WorkoutPlan} {sets reps : Int}
    {rnd : Nat → Nat} {day : Int} (groups : List String) :
    ∀ (items : List ExerciseItem) (lt : String → Int) (k : Nat),
      groups.Nodup →
      (∀ it ∈ items, ∀ g ∈ groups, lookupGroup it.exercise_id ≠ some g) →
      (items.map fun it => lookupGroup it.exercise_id).Nodup →
      ((trainGroups p sets reps rnd day groups items lt k).1.map
        fun it => lookupGroup it.exercise_id).Nodup := by
  induction groups with
  | nil => intro items lt k _ _ hn; exact hn
  | cons g0 rest ih =>
    intro items lt k hnd hdisj hn
    have hnd2 : rest.Nodup := hnd.of_cons
    have hg0 : g0 ∉ rest := by
      rw [List.nodup_cons] at hnd; exact hnd.1
    by_cases hrec : day - lt g0 < 2
    · rw [trainGroups_cons_recovery hrec]
      exact ih items lt k hnd2
        (fun it hit g hg => hdisj it hit g (List.mem_cons_of_mem _ hg)) hn
    · by_cases hpool : p.filtered g0 = []
      · rw [trainGroups_cons_empty hrec hpool]
        exact ih items lt k hnd2
          (fun it hit g hg => hdisj it hit g (List.mem_cons_of_mem _ hg)) hn
      · have hchoice : randomChoice rnd k (p.filtered g0) ∈ p.filtered g0 :=
          randomChoice_mem rnd k _ hpool
        have hmem := (mem_filtered p g0 _).mp hchoice
        have hlook :
            lookupGroup (randomChoice rnd k (p.filtered g0)).id = some g0 := by
          rw [lookupGroup_of_mem _ hmem.1, hmem.2.1]
        have hn2 : ((items ++
            [(⟨(randomChoice rnd k (p.filtered g0)).id, sets, reps⟩ :
              ExerciseItem)]).map
              fun it => lookupGroup it.exercise_id).Nodup := by
          rw [List.map_append, List.nodup_append]
          refine ⟨hn, by simp, fun a ha hb => ?_⟩
          rcases List.mem_map.mp ha with ⟨it, hit, rfl⟩
          have hb2 : lookupGroup it.exercise_id = some g0 := by
            simpa [hlook] using hb
          exact hdisj it hit g0 (List.mem_cons_self _ _) hb2
        by_cases h5 : 4 ≤ items.length
        · rw [trainGroups_cons_break hrec hpool h5]
          exact hn2
        · rw [trainGroups_cons_cont hrec hpool (by omega)]
          refine ih _ _ _ hnd2 (fun it hit g hg => ?_) hn2
          rcases List.mem_append.mp hit with h | h
          · exact hdisj it h g (List.mem_cons_of_mem _ hg)
          · have heq : it =
                ⟨(randomChoice rnd k (p.filtered g0)).id, sets, reps⟩ := by
              simpa using h
            rw [heq]
            simp only [hlook]
            intro hcon
            exact hg0 ((Option.some_injective _ hcon) ▸ hg)

/-! ### Facts about the day loop -/

/-- The focus-group lists are duplicate-free. -/
theorem focus_groups_nodup (focus : String) : (focus_groups focus).Nodup := by
  rw [focus_groups]
  split_ifs <;> decide

/-- `dayTrains` unfolded to an existential. -/
theorem dayTrains_iff (pl : DayPlan) (g : String) :
    dayTrains pl g = true ↔
      ∃ it ∈ pl.items, lookupGroup it.exercise_id = some g := by
  simp [dayTrains]

/-- `dayTrains` is false iff no item belongs to the group. -/
theorem dayTrains_eq_false (pl : DayPlan) (g : String) :
    dayTrains pl g = false ↔
      ∀ it ∈ pl.items, lookupGroup it.exercise_id ≠ some g := by
  simp [dayTrains]

/-- The day loop reproduces the requested `(week, day_index, focus)` triples
verbatim, in order. -/
theorem runDays_proj {p : WorkoutPlan} {sets reps : Int} {rnd : Nat → Nat}
    (specs : List (Int × Nat × String)) :
    ∀ (lt : String → Int) (day : Int) (k : Nat),
      (runDays p sets reps rnd specs lt day k).1.map
        (fun pl => (pl.week, pl.day_index, pl.focus)) = specs := by
  induction specs with
  | nil => intro lt day k; rfl
  | cons s rest ih =>
    intro lt day k
    obtain ⟨w, d, focus⟩ := s
    simp only [runDays, List.map_cons]
    rw [ih]

/-- One scheduled day per requested triple. -/
theorem runDays_length {p : WorkoutPlan} {sets reps : Int} {rnd : Nat → Nat}
    (specs : List (Int × Nat × String)) (lt : String → Int) (day : Int)
    (k : Nat) :
    (runDays p sets reps rnd specs lt day k).1.length = specs.length := by
  conv_rhs => rw [← @runDays_proj p sets reps rnd specs lt day k]
  rw [List.length_map]

/-- Every item of every scheduled day is a pick from the filtered pool of a
candidate group of that day's focus, with the uniform sets/reps. -/
theorem runDays_item_source {p : WorkoutPlan} {sets reps : Int}
    {rnd : Nat → Nat} (specs : List (Int × Nat × String)) :
    ∀ (lt : String → Int) (day : Int) (k : Nat),
      ∀ pl ∈ (runDays p sets reps rnd specs lt day k).1, ∀ it ∈ pl.items,
        ∃ g, g ∈ focus_groups pl.focus ∧
          ∃ ex, ex ∈ p.filtered g ∧ it = ⟨ex.id, sets, reps⟩ := by
  induction specs with
  | nil => intro lt day k pl hpl; cases hpl
  | cons s rest ih =>
    intro lt day k pl hpl it hit
    obtain ⟨w, d, focus⟩ := s
    simp only [runDays] at hpl
    rcases List.mem_cons.mp hpl with rfl | hpl2
    · have hsrc := trainGroups_items
        (sortByKey lt (focus_groups focus))
        [] lt k it (by simpa [buildDay] using hit)
      rcases hsrc with h | ⟨g, hg, _, ex, hex, heq⟩
      · cases h
      · exact ⟨g, (mem_sortByKey lt (focus_groups focus) g).mp hg, ex, hex, heq⟩
    · exact ih _ _ _ pl hpl2 it hit

/-- Every scheduled day holds at most 5 items. -/
theorem runDays_items_le {p : WorkoutPlan} {sets reps : Int}
    {rnd : Nat → Nat} (specs : List (Int × Nat × String)) :
    ∀ (lt : String → Int) (day : Int) (k : Nat),
      ∀ pl ∈ (runDays p sets reps rnd specs lt day k).1,
        pl.items.length ≤ 5 := by
  induction specs with
  | nil => intro lt day k pl hpl; cases hpl
  | cons s rest ih =>
    intro lt day k pl hpl
    obtain ⟨w, d, focus⟩ := s
    simp only [runDays] at hpl
    rcases List.mem_cons.mp hpl with rfl | hpl2
    · simpa [buildDay] using
        trainGroups_length
          (sortByKey lt (focus_groups focus))
          [] lt k (by simp)
    · exact ih _ _ _ pl hpl2

/-- Within one scheduled day, the catalog groups of the items are pairwise
distinct (at most one item per muscle group). -/
theorem runDays_items_nodup {p : WorkoutPlan} {sets reps : Int}
    {rnd : Nat → Nat} (specs : List (Int × Nat × String)) :
    ∀ (lt : String → Int) (day : Int) (k : Nat),
      ∀ pl ∈ (runDays p sets reps rnd specs lt day k).1,
        (pl.items.map fun it => lookupGroup it.exercise_id).Nodup := by
  induction specs with
  | nil => intro lt day k pl hpl; cases hpl
  | cons s rest ih =>
    intro lt day k pl hpl
    obtain ⟨w, d, focus⟩ := s
    simp only [runDays] at hpl
    rcases List.mem_cons.mp hpl with rfl | hpl2
    · have hnd : (sortByKey lt (focus_groups focus)).Nodup :=
        (sortByKey_perm lt (focus_groups focus)).nodup_iff.mpr
          (focus_groups_nodup focus)
      simpa [buildDay] using
        trainGroups_nodup
          (sortByKey lt (focus_groups focus))
          [] lt k hnd (by simp) (by simp)
    · exact ih _ _ _ pl hpl2

/-- The recovery constraint along the day loop: a muscle group trained on one
scheduled day is never trained on the immediately following scheduled day
(the threaded day counter increases by exactly 1 between consecutive days,
also across week boundaries). -/
theorem runDays_recovery {p : WorkoutPlan} {sets reps : Int}
    {rnd : Nat → Nat} (specs : List (Int × Nat × String)) :
    ∀ (lt : String → Int) (day : Int) (k : Nat) (g : String) (i : Nat)
      (pl1 pl2 : DayPlan),
      (runDays p sets reps rnd specs lt day k).1[i]? = some pl1 →
      (runDays p sets reps rnd specs lt day k).1[i + 1]? = some pl2 →
      dayTrains pl1 g = true → dayTrains pl2 g = false := by
  induction specs with
  | nil =>
    intro lt day k g i pl1 pl2 hp1 hp2 ht
    simp [runDays] at hp1
  | cons s rest ih =>
    intro lt day k g i pl1 pl2 hp1 hp2 ht
    obtain ⟨w, d, focus⟩ := s
    simp only [runDays, buildDay] at hp1 hp2
    cases i with
    | succ j =>
      rw [List.getElem?_cons_succ] at hp1 hp2
      exact ih _ _ _ g j pl1 pl2 (by simpa [buildDay] using hp1)
        (by simpa [buildDay] using hp2) ht
    | zero =>
      rw [List.getElem?_cons_zero] at hp1
      injection hp1 with hp1
      subst hp1
      rw [List.getElem?_cons_succ] at hp2
      rw [dayTrains_iff] at ht
      obtain ⟨it, hit, hlook⟩ := ht
      have hsrc := trainGroups_items
        (sortByKey lt (focus_groups focus))
        [] lt k it hit
      rcases hsrc with h | ⟨g1, _, hstamp, ex, hex, heq⟩
      · cases h
      · have hmemE := (mem_filtered p g1 _).mp hex
        have hg1look : lookupGroup it.exercise_id = some g1 := by
          rw [heq]
          show lookupGroup ex.id = some g1
          rw [lookupGroup_of_mem _ hmemE.1, hmemE.2.1]
        have hgg : g1 = g := by
          rw [hg1look] at hlook
          exact Option.some_injective _ hlook
        subst hgg
        cases rest with
        | nil => simp [runDays] at hp2
        | cons s2 rest2 =>
          obtain ⟨w2, d2, f2⟩ := s2
          simp only [runDays, buildDay, List.getElem?_cons_zero] at hp2
          injection hp2 with hp2
          subst hp2
          rw [dayTrains_eq_false]
          intro it2 hit2
          have h2r := (trainGroups_recovery
              (sortByKey ((trainGroups p sets reps rnd day
                  (sortByKey lt (focus_groups focus)) [] lt k).2.1)
                (focus_groups f2))
              [] ((trainGroups p sets reps rnd day
                  (sortByKey lt (focus_groups focus)) [] lt k).2.1)
              ((trainGroups p sets reps rnd day
                  (sortByKey lt (focus_groups focus)) [] lt k).2.2)
              g1 (by rw [hstamp]; omega)).2 it2 hit2
          rcases h2r with h | h
          · cases h
          · exact h

/-! ### The scheduled day triples -/

/-- `generate` unfolded: the day loop over the scheduled triples. -/
theorem generate_eq (p : WorkoutPlan) (rnd : Nat → Nat) (weeks : Int) :
    p.generate rnd weeks =
      (runDays p p.sets_reps.1 p.sets_reps.2 rnd (daySpecs p.template weeks)
        initLastTrained 0 0).1 := rfl

/-- Length of the flattened triple list. -/
theorem range_flatMap_length (template : List String) (n : Nat) :
    ((List.range n).flatMap fun wi =>
      template.enum.map fun df => ((wi : Int) + 1, df.1, df.2)).length =
      n * template.length := by
  induction n with
  | zero => simp
  | succ m ih =>
    rw [List.range_succ, List.flatMap_append, List.length_append, ih]
    simp only [List.flatMap_cons, List.flatMap_nil, List.append_nil,
      List.length_map, List.enum_length]
    ring

/-- `daySpecs` has one triple per scheduled day. -/
theorem daySpecs_length (template : List String) (weeks : Int) :
    (daySpecs template weeks).length = weeks.toNat * template.length := by
  rw [daySpecs, range_flatMap_length]

/-- The triple at position `wi * len + d`: week `wi+1`, day index `d`, and
the focus at position `d` of the weekly template. -/
theorem range_flatMap_get (template : List String) (n : Nat) :
    ∀ (wi d : Nat), wi < n → ∀ (hd : d < template.length),
    ∀ (h : wi * template.length + d < ((List.range n).flatMap fun wi =>
      template.enum.map fun df => ((wi : Int) + 1, df.1, df.2)).length),
    ((List.range n).flatMap fun wi =>
      template.enum.map fun df =>
        ((wi : Int) + 1, df.1, df.2))[wi * template.length + d] =
      ((wi : Int) + 1, d, template[d]) := by
  induction n with
  | zero => intro wi d hwi; omega
  | succ m ih =>
    intro wi d hwi hd h
    simp only [List.range_succ, List.flatMap_append]
    by_cases hm : wi < m
    · have hlt : wi * template.length + d <
          ((List.range m).flatMap fun wi =>
            template.enum.map fun df =>
              ((wi : Int) + 1, df.1, df.2)).length := by
        rw [range_flatMap_length]
        have h2 : (wi + 1) * template.length ≤ m * template.length :=
          Nat.mul_le_mul_right _ hm
        have h3 : (wi + 1) * template.length =
            wi * template.length + template.length := Nat.succ_mul wi _
        omega
      rw [List.getElem_append_left hlt]
      exact ih wi d hm hd hlt
    · have hwi2 : wi = m := by omega
      subst hwi2
      have hge : ((List.range wi).flatMap fun wi =>
          template.enum.map fun df =>
            ((wi : Int) + 1, df.1, df.2)).length ≤
          wi * template.length + d := by
        rw [range_flatMap_length]; omega
      rw [List.getElem_append_right hge]
      have hidx : wi * template.length + d -
          ((List.range wi).flatMap fun wi =>
            template.enum.map fun df =>
              ((wi : Int) + 1, df.1, df.2)).length = d := by
        rw [range_flatMap_length]; omega
      simp only [List.flatMap_cons, List.flatMap_nil, List.append_nil, hidx]
      rw [List.getElem_map, List.getElem_enum]

/-! ### The claims -/

/-- C2: for every generated plan and muscle group `g`, if `g` is trained on
the schedule's global day `i` then `g` is not trained on any day `k` with
`i < k < i + 2`, i.e. on global day `i + 1`; the global day counter runs
contiguously across week boundaries (the schedule positions are exactly the
global day indices). -/
theorem C2_recovery (character_id : String) (days_per_week : Int)
    (level goal equipment : String) (rnd : Nat → Nat) (weeks : Int)
    (g : String) (i : Nat) (pl1 pl2 : DayPlan)
    (h1 : ((WorkoutPlan.init character_id days_per_week level goal
      equipment).generate rnd weeks)[i]? = some pl1)
    (h2 : ((WorkoutPlan.init character_id days_per_week level goal
      equipment).generate rnd weeks)[i + 1]? = some pl2)
    (ht : dayTrains pl1 g = true) : dayTrains pl2 g = false := by
  rw [generate_eq] at h1 h2
  exact runDays_recovery _ _ _ _ g i pl1 pl2 h1 h2 ht

/-- Witness for C2 at a concrete request: chest is trained on global day 0
and skipped on global day 1. -/
theorem C2_recovery_witness :
    dayTrains
      (⟨1, 1, "pull", [⟨"row", 4, 5⟩]⟩ : DayPlan) "chest" = false :=
  C2_recovery "goku" 5 "beginner" "strength" "gym" (fun _ => 0) 1 "chest" 0
    ⟨1, 0, "push", [⟨"pushup", 4, 5⟩, ⟨"ohp-db", 4, 5⟩, ⟨"plank", 4, 5⟩]⟩
    ⟨1, 1, "pull", [⟨"row", 4, 5⟩]⟩
    (by decide) (by decide) (by decide)

/-- C10: a non-positive `weeks` yields an empty schedule, not an error. -/
theorem C10_nonpositive_weeks (character_id : String) (days_per_week : Int)
    (level goal equipment : String) (rnd : Nat → Nat) (weeks : Int)
    (h : weeks ≤ 0) :
    (WorkoutPlan.init character_id days_per_week level goal
      equipment).generate rnd weeks = [] := by
  rw [generate_eq, daySpecs, Int.toNat_of_nonpos h]
  rfl

/-- Witness for C10 at `weeks = -3` and `weeks = 0`. -/
theorem C10_nonpositive_weeks_witness :
    (WorkoutPlan.init "goku" 5 "beginner" "strength" "gym").generate
        (fun _ => 0) (-3) = [] ∧
    (WorkoutPlan.init "zoro" 2 "intermediate" "athletic" "dumbbells").generate
        (fun _ => 0) 0 = [] :=
  ⟨C10_nonpositive_weeks "goku" 5 "beginner" "strength" "gym" (fun _ => 0)
      (-3) (by decide),
   C10_nonpositive_weeks "zoro" 2 "intermediate" "athletic" "dumbbells"
      (fun _ => 0) 0 (by decide)⟩

/-- C8: with a fixed random stream, two generate calls with identical inputs
produce identical schedules. -/
theorem C8_determinism (cid1 cid2 : String) (dpw1 dpw2 : Int)
    (level1 level2 goal1 goal2 equip1 equip2 : String)
    (rnd1 rnd2 : Nat → Nat) (weeks1 weeks2 : Int)
    (h1 : cid1 = cid2) (h2 : dpw1 = dpw2) (h3 : level1 = level2)
    (h4 : goal1 = goal2) (h5 : equip1 = equip2) (h6 : rnd1 = rnd2)
    (h7 : weeks1 = weeks2) :
    (WorkoutPlan.init cid1 dpw1 level1 goal1 equip1).generate rnd1 weeks1 =
      (WorkoutPlan.init cid2 dpw2 level2 goal2 equip2).generate rnd2 weeks2 := by
  subst h1; subst h2; subst h3; subst h4; subst h5; subst h6; subst h7
  rfl

/-- Witness for C8 at a concrete request. -/
theorem C8_determinism_witness :
    (WorkoutPlan.init "luffy" 4 "beginner" "hypertrophy" "gym").generate
        (fun n => n + 2) 2 =
      (WorkoutPlan.init "luffy" 4 "beginner" "hypertrophy" "gym").generate
        (fun n => n + 2) 2 :=
  C8_determinism "luffy" "luffy" 4 4 "beginner" "beginner" "hypertrophy"
    "hypertrophy" "gym" "gym" (fun n => n + 2) (fun n => n + 2) 2 2
    rfl rfl rfl rfl rfl rfl rfl

/-- C1: the schedule has exactly `weeks * len(template)` entries, in
week-major then day-minor order: the entry at position
`wi * len(template) + d` belongs to week `wi + 1`, has `day_index = d`
(so `day_index` cycles `0..len(template)-1` within each week), and carries
the focus at position `d` of the resolved template. -/
theorem C1_schedule_shape (p : WorkoutPlan) (rnd : Nat → Nat) (weeks : Int) :
    (p.generate rnd weeks).length = weeks.toNat * p.template.length ∧
    ∀ (wi d : Nat) (pl : DayPlan), wi < weeks.toNat →
      ∀ (hd : d < p.template.length),
      (p.generate rnd weeks)[wi * p.template.length + d]? = some pl →
      pl.week = (wi : Int) + 1 ∧ pl.day_index = d ∧
        pl.focus = p.template[d] := by
  have hlen : (p.generate rnd weeks).length =
      weeks.toNat * p.template.length := by
    rw [generate_eq, runDays_length, daySpecs_length]
  refine ⟨hlen, fun wi d pl hwi hd hp => ?_⟩
  have hmap := @runDays_proj p p.sets_reps.1 p.sets_reps.2 rnd
    (daySpecs p.template weeks) initLastTrained 0 0
  have hq : (daySpecs p.template weeks)[wi * p.template.length + d]? =
      some (pl.week, pl.day_index, pl.focus) := by
    rw [← hmap, List.getElem?_map]
    rw [generate_eq] at hp
    rw [hp]
    rfl
  have hidx2 : wi * p.template.length + d <
      (daySpecs p.template weeks).length := by
    rw [daySpecs_length]
    have h2 : (wi + 1) * p.template.length ≤
        weeks.toNat * p.template.length := Nat.mul_le_mul_right _ hwi
    have h3 : (wi + 1) * p.template.length =
        wi * p.template.length + p.template.length := Nat.succ_mul wi _
    omega
  rw [List.getElem?_eq_getElem hidx2] at hq
  injection hq with hq
  have hget := range_flatMap_get p.template weeks.toNat wi d hwi hd
    (by rw [range_flatMap_length]; rw [daySpecs_length] at hidx2; exact hidx2)
  have heq := hget.symm.trans hq
  rw [Prod.mk.injEq, Prod.mk.injEq] at heq
  exact ⟨heq.1.symm, heq.2.1.symm, heq.2.2.symm⟩

/-- Witness for C1 at a concrete request: 1 week of the goku template has
5 days, and day 1 of week 1 is the second template entry ("pull"). -/
theorem C1_schedule_shape_witness :
    ((WorkoutPlan.init "goku" 5 "beginner" "strength" "gym").generate
        (fun _ => 0) 1).length = 5 ∧
    ((⟨1, 1, "pull", [⟨"row", 4, 5⟩]⟩ : DayPlan).week = 1 ∧
      (⟨1, 1, "pull", [⟨"row", 4, 5⟩]⟩ : DayPlan).day_index = 1 ∧
      (⟨1, 1, "pull", [⟨"row", 4, 5⟩]⟩ : DayPlan).focus = "pull") := by
  have h := C1_schedule_shape
    (WorkoutPlan.init "goku" 5 "beginner" "strength" "gym") (fun _ => 0) 1
  have h2 := h.2 0 1 ⟨1, 1, "pull", [⟨"row", 4, 5⟩]⟩ (by decide) (by decide)
    (by decide)
  exact ⟨by rw [h.1]; decide, h2.1, h2.2.1, by rw [h2.2.2]; decide⟩

/-- C4: fallback templates for an unknown character id, keyed by the clamped
day count: any clamped value ≤ 3 yields the fixed 3-day "full" template
(ignoring the requested count); 4, 5 and 6 yield their fixed tables. -/
theorem C4_fallback_template (character_id : String) (days_per_week : Int)
    (level goal equipment : String)
    (hc : CHAR_ARCH character_id = none) :
    ((max 1 (min 6 days_per_week)).toNat ≤ 3 →
      (WorkoutPlan.init character_id days_per_week level goal
        equipment).template = ["full", "full", "full"]) ∧
    ((max 1 (min 6 days_per_week)).toNat = 4 →
      (WorkoutPlan.init character_id days_per_week level goal
        equipment).template = ["push", "legs", "pull", "full"]) ∧
    ((max 1 (min 6 days_per_week)).toNat = 5 →
      (WorkoutPlan.init character_id days_per_week level goal
        equipment).template = ["push", "pull", "legs", "full", "full"]) ∧
    ((max 1 (min 6 days_per_week)).toNat = 6 →
      (WorkoutPlan.init character_id days_per_week level goal
        equipment).template =
        ["push", "pull", "legs", "push", "pull", "legs"]) := by
  refine ⟨fun h => ?_, fun h => ?_, fun h => ?_, fun h => ?_⟩ <;>
    simp [WorkoutPlan.init, make_template, hc, h]

/-- Witness for C4: an unknown character id at requested day counts
2, 4, 5 and 9 (clamped to 2, 4, 5 and 6). -/
theorem C4_fallback_template_witness :
    (WorkoutPlan.init "zoro" 2 "beginner" "athletic" "gym").template =
      ["full", "full", "full"] ∧
    (WorkoutPlan.init "zoro" 4 "beginner" "athletic" "gym").template =
      ["push", "legs", "pull", "full"] ∧
    (WorkoutPlan.init "zoro" 5 "beginner" "athletic" "gym").template =
      ["push", "pull", "legs", "full", "full"] ∧
    (WorkoutPlan.init "zoro" 9 "beginner" "athletic" "gym").template =
      ["push", "pull", "legs", "push", "pull", "legs"] :=
  ⟨(C4_fallback_template "zoro" 2 "beginner" "athletic" "gym" rfl).1
      (by decide),
   (C4_fallback_template "zoro" 4 "beginner" "athletic" "gym" rfl).2.1
      (by decide),
   (C4_fallback_template "zoro" 5 "beginner" "athletic" "gym" rfl).2.2.1
      (by decide),
   (C4_fallback_template "zoro" 9 "beginner" "athletic" "gym" rfl).2.2.2
      (by decide)⟩

/-- C5: for a known character id, `days_per_week` is clamped into [1,6]
before template resolution; a template at least as long as the clamped count
N is truncated to its first N entries, a shorter one is padded by repeating
its last focus tag up to length N; for any requested count > 6 the resolved
template has length 6. -/
theorem C5_known_template (character_id : String) (days_per_week : Int)
    (level goal equipment : String) (pref : Archetype)
    (hc : CHAR_ARCH character_id = some pref) :
    (WorkoutPlan.init character_id days_per_week level goal
        equipment).days = max 1 (min 6 days_per_week) ∧
    ((max 1 (min 6 days_per_week)).toNat ≤ pref.template.length →
      (WorkoutPlan.init character_id days_per_week level goal
        equipment).template =
        pref.template.take (max 1 (min 6 days_per_week)).toNat) ∧
    (pref.template.length < (max 1 (min 6 days_per_week)).toNat →
      (WorkoutPlan.init character_id days_per_week level goal
        equipment).template =
        pref.template ++ List.replicate
          ((max 1 (min 6 days_per_week)).toNat - pref.template.length)
          (pref.template.getLastD "")) ∧
    (6 < days_per_week →
      (WorkoutPlan.init character_id days_per_week level goal
        equipment).template.length = 6) := by
  refine ⟨by simp [WorkoutPlan.init], fun h => ?_, fun h => ?_, fun h => ?_⟩
  · simp [WorkoutPlan.init, make_template, hc, h]
  · simp [WorkoutPlan.init, make_template, hc, Nat.not_le.mpr h]
  · have hclamp : max 1 (min 6 days_per_week) = 6 := by omega
    simp only [WorkoutPlan.init, hclamp, make_template, hc]
    rw [show Int.toNat 6 = 6 from rfl]
    rcases le_or_lt 6 pref.template.length with hlen | hlen
    · rw [if_pos hlen, List.length_take]
      omega
    · rw [if_neg (Nat.not_le.mpr hlen), List.length_append,
        List.length_replicate]
      omega

/-- Witness for C5: goku (5-entry template) at requested counts 3
(truncated) and 9 (clamped to 6, padded to length 6). -/
theorem C5_known_template_witness :
    (WorkoutPlan.init "goku" 9 "beginner" "strength" "gym").days = 6 ∧
    (WorkoutPlan.init "goku" 3 "beginner" "strength" "gym").template =
      ["push", "pull", "legs"] ∧
    (WorkoutPlan.init "goku" 9 "beginner" "strength" "gym").template =
      ["push", "pull", "legs", "full", "full", "full"] ∧
    (WorkoutPlan.init "goku" 9 "beginner" "strength" "gym").template.length
      = 6 := by
  have h3 := C5_known_template "goku" 3 "beginner" "strength" "gym"
    ⟨"power", ["push", "pull", "legs", "full", "full"], 4, 5⟩ rfl
  have h9 := C5_known_template "goku" 9 "beginner" "strength" "gym"
    ⟨"power", ["push", "pull", "legs", "full", "full"], 4, 5⟩ rfl
  refine ⟨by rw [h9.1]; decide, ?_, ?_, h9.2.2.2 (by decide)⟩
  · rw [h3.2.1 (by decide)]; decide
  · rw [h9.2.2.1 (by decide)]; decide

/-- C3: base sets come from the archetype when the character is known, else
3 for level "beginner" and 4 otherwise; reps are `min(candidate, 6)` for
goal "strength" (4 with no candidate), `max(candidate, 8)` for
"hypertrophy" (8 with no candidate), and `max(candidate, 10)` for any other
goal (10 with no candidate); the single resulting pair is applied uniformly
to every item of the whole generated plan; in particular goku+strength
gives reps 5, luffy+strength gives reps 6, and saitama+hypertrophy gives
sets 3 and reps 10. -/
theorem C3_sets_reps (character_id : String) (days_per_week : Int)
    (level goal equipment : String) (rnd : Nat → Nat) (weeks : Int) :
    (∀ pl ∈ (WorkoutPlan.init character_id days_per_week level goal
        equipment).generate rnd weeks, ∀ it ∈ pl.items,
      it.sets = (WorkoutPlan.init character_id days_per_week level goal
        equipment).sets_reps.1 ∧
      it.reps = (WorkoutPlan.init character_id days_per_week level goal
        equipment).sets_reps.2) ∧
    (∀ c, CHAR_ARCH character_id = some c →
      (WorkoutPlan.init character_id days_per_week level goal
        equipment).sets_reps.1 = c.sets ∧
      (goal = "strength" →
        (WorkoutPlan.init character_id days_per_week level goal
          equipment).sets_reps.2 = min c.reps 6) ∧
      (goal = "hypertrophy" →
        (WorkoutPlan.init character_id days_per_week level goal
          equipment).sets_reps.2 = max c.reps 8) ∧
      (goal ≠ "strength" → goal ≠ "hypertrophy" →
        (WorkoutPlan.init character_id days_per_week level goal
          equipment).sets_reps.2 = max c.reps 10)) ∧
    (CHAR_ARCH character_id = none →
      (WorkoutPlan.init character_id days_per_week level goal
        equipment).sets_reps.1 = (if level = "beginner" then 3 else 4) ∧
      (goal = "strength" →
        (WorkoutPlan.init character_id days_per_week level goal
          equipment).sets_reps.2 = 4) ∧
      (goal = "hypertrophy" →
        (WorkoutPlan.init character_id days_per_week level goal
          equipment).sets_reps.2 = 8) ∧
      (goal ≠ "strength" → goal ≠ "hypertrophy" →
        (WorkoutPlan.init character_id days_per_week level goal
          equipment).sets_reps.2 = 10)) ∧
    (character_id = "goku" → goal = "strength" →
      (WorkoutPlan.init character_id days_per_week level goal
        equipment).sets_reps.2 = 5) ∧
    (character_id = "luffy" → goal = "strength" →
      (WorkoutPlan.init character_id days_per_week level goal
        equipment).sets_reps.2 = 6) ∧
    (character_id = "saitama" → goal = "hypertrophy" →
      (WorkoutPlan.init character_id days_per_week level goal
        equipment).sets_reps.1 = 3 ∧
      (WorkoutPlan.init character_id days_per_week level goal
        equipment).sets_reps.2 = 10) := by
  refine ⟨fun pl hpl it hit => ?_, fun c hc => ?_, fun hc => ?_,
    fun h1 h2 => ?_, fun h1 h2 => ?_, fun h1 h2 => ?_⟩
  · rw [generate_eq] at hpl
    obtain ⟨g, _, ex, _, heq⟩ :=
      runDays_item_source (daySpecs (WorkoutPlan.init character_id
        days_per_week level goal equipment).template weeks)
        initLastTrained 0 0 pl hpl it hit
    rw [heq]
    exact ⟨rfl, rfl⟩
  · refine ⟨?_, fun hg => ?_, fun hg => ?_, fun hg1 hg2 => ?_⟩
    · simp [WorkoutPlan.sets_reps, WorkoutPlan.init, hc]
    · simp [WorkoutPlan.sets_reps, WorkoutPlan.init, hc, hg]
    · simp [WorkoutPlan.sets_reps, WorkoutPlan.init, hc, hg]
    · simp [WorkoutPlan.sets_reps, WorkoutPlan.init, hc, hg1, hg2]
  · refine ⟨?_, fun hg => ?_, fun hg => ?_, fun hg1 hg2 => ?_⟩
    · simp [WorkoutPlan.sets_reps, WorkoutPlan.init, hc]
    · simp [WorkoutPlan.sets_reps, WorkoutPlan.init, hc, hg]
    · simp [WorkoutPlan.sets_reps, WorkoutPlan.init, hc, hg]
    · simp [WorkoutPlan.sets_reps, WorkoutPlan.init, hc, hg1, hg2]
  · subst h1; subst h2; rfl
  · subst h1; subst h2; rfl
  · subst h1; subst h2; exact ⟨rfl, rfl⟩

/-- Witness for C3: concrete checks of the three named character/goal
pairs, plus uniformity on a concrete generated plan item. -/
theorem C3_sets_reps_witness :
    (WorkoutPlan.init "goku" 5 "beginner" "strength" "gym").sets_reps.2
        = 5 ∧
    (WorkoutPlan.init "luffy" 5 "beginner" "strength" "gym").sets_reps.2
        = 6 ∧
    ((WorkoutPlan.init "saitama" 3 "beginner" "hypertrophy"
        "gym").sets_reps.1 = 3 ∧
     (WorkoutPlan.init "saitama" 3 "beginner" "hypertrophy"
        "gym").sets_reps.2 = 10) ∧
    ((⟨"row", 4, 5⟩ : ExerciseItem).sets =
        (WorkoutPlan.init "goku" 5 "beginner" "strength" "gym").sets_reps.1 ∧
     (⟨"row", 4, 5⟩ : ExerciseItem).reps =
        (WorkoutPlan.init "goku" 5 "beginner" "strength" "gym").sets_reps.2) :=
  ⟨(C3_sets_reps "goku" 5 "beginner" "strength" "gym" (fun _ => 0)
      1).2.2.2.1 rfl rfl,
   (C3_sets_reps "luffy" 5 "beginner" "strength" "gym" (fun _ => 0)
      1).2.2.2.2.1 rfl rfl,
   (C3_sets_reps "saitama" 3 "beginner" "hypertrophy" "gym" (fun _ => 0)
      1).2.2.2.2.2 rfl rfl,
   (C3_sets_reps "goku" 5 "beginner" "strength" "gym" (fun _ => 0) 1).1
      ⟨1, 1, "pull", [⟨"row", 4, 5⟩]⟩ (by decide) ⟨"row", 4, 5⟩
      (by decide)⟩

/-- C6: the equipment filter accepts any catalog exercise of the matching
group when the request is "gym", and otherwise only exercises whose
equipment equals the request or is "bodyweight"; with equipment
"dumbbells" no selected exercise is a "gym" exercise; a group whose
filtered pool is empty is skipped with no item added and `last_trained`
untouched. -/
theorem C6_equipment_filter (character_id : String) (days_per_week : Int)
    (level goal equipment : String) (rnd : Nat → Nat) (weeks : Int) :
    (∀ (g : String) (ex : Exercise),
      ex ∈ (WorkoutPlan.init character_id days_per_week level goal
          equipment).filtered g ↔
        ex ∈ EXERCISES ∧ ex.group = g ∧
          (equipment = "gym" ∨ ex.equipment = equipment ∨
            ex.equipment = "bodyweight")) ∧
    (equipment = "dumbbells" →
      ∀ pl ∈ (WorkoutPlan.init character_id days_per_week level goal
          equipment).generate rnd weeks, ∀ it ∈ pl.items,
        ∀ ex ∈ EXERCISES, ex.id = it.exercise_id →
          ex.equipment ≠ "gym") ∧
    (∀ (sets reps day : Int) (g : String) (rest : List String)
        (items : List ExerciseItem) (lt : String → Int) (k : Nat),
      ¬ day - lt g < 2 →
      (WorkoutPlan.init character_id days_per_week level goal
        equipment).filtered g = [] →
      trainGroups (WorkoutPlan.init character_id days_per_week level goal
          equipment) sets reps rnd day (g :: rest) items lt k =
        trainGroups (WorkoutPlan.init character_id days_per_week level goal
          equipment) sets reps rnd day rest items lt k) := by
  refine ⟨fun g ex => mem_filtered _ g ex,
    fun hd pl hpl it hit ex hex hid => ?_,
    fun sets reps day g rest items lt k hrec hpool =>
      trainGroups_cons_empty hrec hpool⟩
  rw [generate_eq] at hpl
  obtain ⟨g, _, ex0, hex0, heq⟩ :=
    runDays_item_source _ _ _ _ pl hpl it hit
  have hf := (mem_filtered _ g ex0).mp hex0
  have hexeq : ex = ex0 := by
    apply exercises_id_inj ex ex0 hex hf.1
    rw [hid, heq]
  rw [hexeq]
  rcases hf.2.2 with hcase | hcase | hcase
  · have hcase2 : equipment = "gym" := hcase
    rw [hd] at hcase2
    exact absurd hcase2 (by decide)
  · have hcase2 : ex0.equipment = equipment := hcase
    rw [hd] at hcase2
    rw [hcase2]
    decide
  · rw [hcase]
    decide

/-- Witness for C6: with dumbbells the selected push-up is not a gym
exercise, and with bodyweight equipment the shoulders group (whose pool is
empty) is skipped untouched. -/
theorem C6_equipment_filter_witness :
    (⟨"pushup", "Push-ups", "chest", "bodyweight"⟩ : Exercise).equipment
        ≠ "gym" ∧
    trainGroups (WorkoutPlan.init "zoro" 3 "beginner" "athletic"
        "bodyweight") 3 10 (fun _ => 0) 0 ("shoulders" :: ["core"]) []
        initLastTrained 0 =
      trainGroups (WorkoutPlan.init "zoro" 3 "beginner" "athletic"
        "bodyweight") 3 10 (fun _ => 0) 0 ["core"] [] initLastTrained 0 :=
  ⟨(C6_equipment_filter "goku" 5 "beginner" "strength" "dumbbells"
      (fun _ => 0) 1).2.1 rfl
      ⟨1, 0, "push", [⟨"pushup", 4, 5⟩, ⟨"ohp-db", 4, 5⟩, ⟨"plank", 4, 5⟩]⟩
      (by decide) ⟨"pushup", 4, 5⟩ (by decide)
      ⟨"pushup", "Push-ups", "chest", "bodyweight"⟩ (by decide) rfl,
   (C6_equipment_filter "zoro" 3 "beginner" "athletic" "bodyweight"
      (fun _ => 0) 1).2.2 3 10 0 "shoulders" ["core"] [] initLastTrained 0
      (by decide) (by decide)⟩

/-- C7: every scheduled day holds between 0 and 5 items; once a day reaches
5 items the loop stops even though candidate groups remain; a day where no
group is eligible yields an empty item list (day 1 of the saitama plan)
rather than an error. -/
theorem C7_items_cap (character_id : String) (days_per_week : Int)
    (level goal equipment : String) (rnd : Nat → Nat) (weeks : Int) :
    (∀ pl ∈ (WorkoutPlan.init character_id days_per_week level goal
        equipment).generate rnd weeks, pl.items.length ≤ 5) ∧
    (∀ (sets reps day : Int) (g : String) (rest : List String)
        (items : List ExerciseItem) (lt : String → Int) (k : Nat),
      items.length = 4 → ¬ day - lt g < 2 →
      (WorkoutPlan.init character_id days_per_week level goal
        equipment).filtered g ≠ [] →
      trainGroups (WorkoutPlan.init character_id days_per_week level goal
          equipment) sets reps rnd day (g :: rest) items lt k =
        (items ++ [⟨(randomChoice rnd k ((WorkoutPlan.init character_id
            days_per_week level goal equipment).filtered g)).id, sets,
          reps⟩], Function.update lt g day, k + 1)) ∧
    (((WorkoutPlan.init "saitama" 3 "beginner" "athletic" "gym").generate
        (fun n => n) 1).map fun pl => pl.items.length) = [5, 0, 5] := by
  refine ⟨fun pl hpl => ?_,
    fun sets reps day g rest items lt k hlen hrec hpool =>
      trainGroups_cons_break hrec hpool (by omega), by decide⟩
  rw [generate_eq] at hpl
  exact runDays_items_le _ _ _ _ pl hpl

/-- Witness for C7: a concrete day holds 3 ≤ 5 items, and a concrete
4-item day stops right after the fifth item although "back" remains. -/
theorem C7_items_cap_witness :
    (⟨1, 0, "push", [⟨"pushup", 4, 5⟩, ⟨"ohp-db", 4, 5⟩,
        ⟨"plank", 4, 5⟩]⟩ : DayPlan).items.length ≤ 5 ∧
    trainGroups (WorkoutPlan.init "goku" 5 "beginner" "strength" "gym")
        4 5 (fun _ => 0) 0 ("chest" :: ["back"])
        [⟨"a", 4, 5⟩, ⟨"b", 4, 5⟩, ⟨"c", 4, 5⟩, ⟨"d", 4, 5⟩]
        initLastTrained 0 =
      ([⟨"a", 4, 5⟩, ⟨"b", 4, 5⟩, ⟨"c", 4, 5⟩, ⟨"d", 4, 5⟩] ++
        [⟨(randomChoice (fun _ => 0) 0 ((WorkoutPlan.init "goku" 5
            "beginner" "strength" "gym").filtered "chest")).id, 4, 5⟩],
        Function.update initLastTrained "chest" 0, 0 + 1) :=
  ⟨(C7_items_cap "goku" 5 "beginner" "strength" "gym" (fun _ => 0) 1).1
      ⟨1, 0, "push", [⟨"pushup", 4, 5⟩, ⟨"ohp-db", 4, 5⟩, ⟨"plank", 4, 5⟩]⟩
      (by decide),
   (C7_items_cap "goku" 5 "beginner" "strength" "gym" (fun _ => 0) 1).2.1
      4 5 0 "chest" ["back"]
      [⟨"a", 4, 5⟩, ⟨"b", 4, 5⟩, ⟨"c", 4, 5⟩, ⟨"d", 4, 5⟩]
      initLastTrained 0 rfl (by decide) (by decide)⟩

/-- C9: within a single day each muscle group contributes at most one item,
every item's exercise id refers to a catalog exercise whose group belongs
to the focus-group set of that day's focus, and the focus-group mapping is
push → chest/shoulders/core, pull → back/core, legs → legs/core, and
anything else → chest/back/legs/shoulders/core. -/
theorem C9_day_structure (character_id : String) (days_per_week : Int)
    (level goal equipment : String) (rnd : Nat → Nat) (weeks : Int) :
    (∀ pl ∈ (WorkoutPlan.init character_id days_per_week level goal
        equipment).generate rnd weeks,
      (pl.items.map fun it => lookupGroup it.exercise_id).Nodup) ∧
    (∀ pl ∈ (WorkoutPlan.init character_id days_per_week level goal
        equipment).generate rnd weeks, ∀ it ∈ pl.items,
      ∃ ex ∈ EXERCISES, it.exercise_id = ex.id ∧
        ex.group ∈ focus_groups pl.focus) ∧
    (focus_groups "push" = ["chest", "shoulders", "core"] ∧
     focus_groups "pull" = ["back", "core"] ∧
     focus_groups "legs" = ["legs", "core"] ∧
     ∀ focus, focus ≠ "push" → focus ≠ "pull" → focus ≠ "legs" →
       focus_groups focus = ["chest", "back", "legs", "shoulders",
         "core"]) := by
  refine ⟨fun pl hpl => ?_, fun pl hpl it hit => ?_,
    rfl, rfl, rfl, fun focus h1 h2 h3 => ?_⟩
  · rw [generate_eq] at hpl
    exact runDays_items_nodup _ _ _ _ pl hpl
  · rw [generate_eq] at hpl
    obtain ⟨g, hgf, ex, hex, heq⟩ :=
      runDays_item_source _ _ _ _ pl hpl it hit
    have hf := (mem_filtered _ g ex).mp hex
    refine ⟨ex, hf.1, by rw [heq], ?_⟩
    rw [hf.2.1]
    exact hgf
  · rw [focus_groups, if_neg h1, if_neg h2, if_neg h3]

/-- Witness for C9: the first day of a concrete plan has pairwise-distinct
item groups, its first item is the catalog push-up whose group "chest" is a
push focus group, and an unrecognized focus tag maps to the full group
list. -/
theorem C9_day_structure_witness :
    ((⟨1, 0, "push", [⟨"pushup", 4, 5⟩, ⟨"ohp-db", 4, 5⟩,
        ⟨"plank", 4, 5⟩]⟩ : DayPlan).items.map
      fun it => lookupGroup it.exercise_id).Nodup ∧
    (∃ ex ∈ EXERCISES,
      (⟨"pushup", 4, 5⟩ : ExerciseItem).exercise_id = ex.id ∧
        ex.group ∈ focus_groups
          (⟨1, 0, "push", [⟨"pushup", 4, 5⟩, ⟨"ohp-db", 4, 5⟩,
            ⟨"plank", 4, 5⟩]⟩ : DayPlan).focus) ∧
    focus_groups "cardio" = ["chest", "back", "legs", "shoulders", "core"] :=
  ⟨(C9_day_structure "goku" 5 "beginner" "strength" "gym" (fun _ => 0)
      1).1
      ⟨1, 0, "push", [⟨"pushup", 4, 5⟩, ⟨"ohp-db", 4, 5⟩, ⟨"plank", 4, 5⟩]⟩
      (by decide),
   (C9_day_structure "goku" 5 "beginner" "strength" "gym" (fun _ => 0)
      1).2.1
      ⟨1, 0, "push", [⟨"pushup", 4, 5⟩, ⟨"ohp-db", 4, 5⟩, ⟨"plank", 4, 5⟩]⟩
      (by decide) ⟨"pushup", 4, 5⟩ (by decide),
   (C9_day_structure "goku" 5 "beginner" "strength" "gym" (fun _ => 0)
      1).2.2.2.2.2 "cardio" (by decide) (by decide) (by decide)⟩
